import Mathlib

/-!
Shallow embedding of the OpenPype sync-server subsystem
(`openpype/modules/sync_server/sync_server.py`) and proofs about it.

The stateful Python code is embedded as pure Lean functions: the module /
provider-factory surface consumed by `sync_server.py` becomes a record of
functions (`ModuleEnv`), the scheduling pass of `sync_loop` becomes a fold
over representations and files carrying an explicit `SchedState`, fallible
calls return `Except PyExc`, and `upload` additionally returns the list of
observable events (calls made, exceptions printed) so that "never invoked"
style properties are expressible.
-/

/-- Python truthiness of an optional string: `None` and `""` are falsy. -/
def pyTruthyStrOpt : Option String → Bool
  | none => false
  | some s => !(s == "")

/-- Model of `os.path.dirname` for forward-slash paths: everything before
the final path separator. -/
def dirname (path : String) : String :=
  String.intercalate "/" (path.splitOn "/").dropLast

/-- A Python exception value, with enough structure for the exceptions that
`sync_server.py` raises, catches or stores. -/
inductive PyExc where
  | notADirectoryError (msg : String)
  | unboundLocalError (name : String)
  | connectionResetError (msg : String)
  | resumableError (msg : String)
  | cancelledError
  | other (msg : String)
deriving DecidableEq, Repr

/-- Model of Python `str(exception)`. -/
def PyExc.str : PyExc → String
  | .notADirectoryError m => m
  | .unboundLocalError n => "local variable " ++ n ++ " referenced before assignment"
  | .connectionResetError m => m
  | .resumableError m => m
  | .cancelledError => ""
  | .other m => m

/-- Opaque site configuration / preset dictionary (contents never inspected
by the embedded code, only passed through). -/
structure SiteConfig where
  data : List (String × String) := []
deriving DecidableEq, Repr

/-- One entry of a representation's `files` array: its Mongo `_id` and its
`path` (with `{root}` placeholder). -/
structure SFile where
  id : String
  path : String
deriving DecidableEq, Repr

/-- A representation document as consumed by `sync_loop`: its `_id` and its
`files` array. -/
structure Repre where
  id : String
  files : List SFile
deriving DecidableEq, Repr

/-- Modelled from the spec: the status enum returned by the status
evaluator `check_status` (`utils.SyncStatus` is outside the sources;
spec section 4.3 lists UNKNOWN, DO_UPLOAD, DO_DOWNLOAD, SYNCED, ERROR).
Only the comparisons with DO_UPLOAD and DO_DOWNLOAD occur in the embedded
code. -/
inductive SyncStatus where
  | unknown
  | doUpload
  | doDownload
  | synced
  | error
deriving DecidableEq, Repr

/-- A provider handler as returned by `lib.factory.get_provider`: the
operations `sync_server.py` calls on it.  Fallible operations return
`Except PyExc`; `create_folder` may return `None` (modelled `none`) or an
id string.  The in-memory `tree` cache is a performance detail never
inspected by the embedded code and is not modelled. -/
structure Handler where
  resolvePath : String → Except PyExc String
  createFolder : String → Except PyExc (Option String)
  uploadFile : String → String → Except PyExc String
  downloadFile : String → String → Except PyExc String
  isActive : Bool

/-- The per-project sync setting as returned by
`module.get_sync_project_setting`: the `enabled` flag, the `sites` dict and
the `config` sub-dict handed to `check_status`. -/
structure ProjectSetting where
  enabled : Bool
  sites : List (String × SiteConfig)
  config : SiteConfig

/-- Association-list lookup, modelling Python dict access by key. -/
def lookupStr (d : List (String × SiteConfig)) (k : String) : Option SiteConfig :=
  (d.find? (fun kv => kv.1 == k)).map (fun kv => kv.2)

/-- Model of Python `dict.update`: keys of `base` keep their position with
the overriding value from `upd` when present; keys only in `upd` are
appended. -/
def dictUpdate (base upd : List (String × SiteConfig)) : List (String × SiteConfig) :=
  base.map (fun kv => (kv.1, (lookupStr upd kv.1).getD kv.2))
    ++ upd.filter (fun kv => (lookupStr base kv.1).isNone)

/-- The surface of `SyncServerModule` and `lib.factory` that
`sync_server.py` consumes, embedded as a record of pure functions.
Handler construction (`get_provider`) is modelled as a pure function of its
arguments, which makes the `initiated_handlers` memoization in
`_get_configured_sites_from_setting` observationally the identity. -/
structure ModuleEnv where
  isProjectPaused : String → Bool
  getActiveSite : String → String
  getRemoteSite : String → String
  getSyncProjectSetting : String → ProjectSetting
  defaultSiteConfigs : List (String × SiteConfig)
  getProviderForSite : String → String
  getSyncRepresentations : String → String → String → List Repre
  isRepresentationPaused : String → Bool
  checkStatus : SFile → String → String → SiteConfig → SyncStatus
  getProviderBatchLimit : String → Int
  getProvider : String → String → String → Option SiteConfig → Handler

/-- `_get_configured_sites_from_setting`: no sites when the project setting
is not enabled; otherwise every site of the default configs updated with the
project's site configs whose handler reports `is_active()`. -/
def get_configured_sites_from_setting (env : ModuleEnv) (projectName : String)
    (projectSetting : ProjectSetting) : List String :=
  if !projectSetting.enabled then []
  else
    let allSites := dictUpdate env.defaultSiteConfigs projectSetting.sites
    (allSites.filter (fun kv =>
      let provider := env.getProviderForSite kv.1
      (env.getProvider provider projectName kv.1 (some kv.2)).isActive)).map (fun kv => kv.1)

/-- `_get_configured_sites`. -/
def get_configured_sites (env : ModuleEnv) (projectName : String) : List String :=
  get_configured_sites_from_setting env projectName (env.getSyncProjectSetting projectName)

/-- `site_is_working`. -/
def site_is_working (env : ModuleEnv) (projectName siteName : String) : Bool :=
  (get_configured_sites env projectName).contains siteName

/-- `SyncServerThread._working_sites`: gives `(None, None)` when the project
is paused, when active and remote site coincide, or when either site is not
among the configured sites. -/
def working_sites (env : ModuleEnv) (projectName : String) :
    Option String × Option String :=
  if env.isProjectPaused projectName then (none, none)
  else
    let localSite := env.getActiveSite projectName
    let remoteSite := env.getRemoteSite projectName
    if localSite = remoteSite then (none, none)
    else
      let configuredSites := get_configured_sites env projectName
      if !(configuredSites.contains localSite && configuredSites.contains remoteSite) then
        (none, none)
      else (some localSite, some remoteSite)

/-- Direction of a scheduled transfer. -/
inductive Direction where
  | up
  | down
deriving DecidableEq, Repr

/-- One scheduled transfer task of an iteration (an entry of
`task_files_to_process`, remembering which coroutine it wraps). -/
structure TransferTask where
  direction : Direction
  file : SFile
  repreId : String
  remoteSite : String
deriving DecidableEq, Repr

/-- One entry of `files_processed_info` as recorded next to each task. -/
structure TaskInfo where
  file : SFile
  repreId : String
  site : String
  projectName : String
deriving DecidableEq, Repr

/-- The mutable locals of the scheduling pass of one project inside
`sync_loop`: the remaining batch `limit`, the `processed_file_path` set and
the parallel lists `task_files_to_process` / `files_processed_info`. -/
structure SchedState where
  limit : Int
  processedFilePath : List String
  tasks : List TransferTask
  infos : List TaskInfo
deriving DecidableEq, Repr

/-- Initial scheduling state of a project iteration. -/
def initSched (limit : Int) : SchedState :=
  ⟨limit, [], [], []⟩

/-- Body of the inner `for file in files` loop of `sync_loop`: skip paths
already processed this iteration, evaluate `check_status`, and on
DO_UPLOAD / DO_DOWNLOAD decrement the limit, schedule one task, record its
info and mark the path processed. -/
def sync_loop_process_file (env : ModuleEnv)
    (projectName localSite remoteSite : String) (config : SiteConfig)
    (sync : Repre) (st : SchedState) (file : SFile) : SchedState :=
  let filePath := file.path
  if st.processedFilePath.contains filePath then st
  else
    let status := env.checkStatus file localSite remoteSite config
    let st1 :=
      if status = SyncStatus.doUpload then
        { st with
          limit := st.limit - 1
          tasks := st.tasks ++ [⟨Direction.up, file, sync.id, remoteSite⟩]
          infos := st.infos ++ [⟨file, sync.id, remoteSite, projectName⟩]
          processedFilePath := st.processedFilePath ++ [filePath] }
      else st
    let st2 :=
      if status = SyncStatus.doDownload then
        { st1 with
          limit := st1.limit - 1
          tasks := st1.tasks ++ [⟨Direction.down, file, sync.id, remoteSite⟩]
          infos := st1.infos ++ [⟨file, sync.id, localSite, projectName⟩]
          processedFilePath := st1.processedFilePath ++ [filePath] }
      else st1
    st2

/-- Body of the `for sync in sync_repres` loop of `sync_loop`: skip paused
representations, skip the whole representation once the batch limit is
exhausted (`if limit <= 0: continue` — the only place the limit is
checked), otherwise process every file of the representation. -/
def sync_loop_process_repre (env : ModuleEnv)
    (projectName localSite remoteSite : String) (config : SiteConfig)
    (st : SchedState) (sync : Repre) : SchedState :=
  if env.isRepresentationPaused sync.id then st
  else if st.limit ≤ 0 then st
  else
    sync.files.foldl
      (sync_loop_process_file env projectName localSite remoteSite config sync) st

/-- The whole scheduling pass of one project inside one `sync_loop`
iteration: fold `sync_loop_process_repre` over the representations returned
by `get_sync_representations`, starting from the provider batch limit. -/
def sync_loop_schedule (env : ModuleEnv)
    (projectName localSite remoteSite : String) (config : SiteConfig)
    (limit : Int) (syncRepres : List Repre) : SchedState :=
  syncRepres.foldl
    (sync_loop_process_repre env projectName localSite remoteSite config)
    (initSched limit)

/-- One project's turn inside a `sync_loop` iteration: determine the working
sites (skipping the project when `all([local_site, remote_site])` is falsy),
then run the scheduling pass with the provider's batch limit. -/
def sync_loop_process_project (env : ModuleEnv) (projectName : String) : SchedState :=
  let preset := env.getSyncProjectSetting projectName
  let ws := working_sites env projectName
  if !(pyTruthyStrOpt ws.1 && pyTruthyStrOpt ws.2) then initSched 0
  else
    let localSite := (ws.1).getD ""
    let remoteSite := (ws.2).getD ""
    let syncRepres := env.getSyncRepresentations projectName localSite remoteSite
    let remoteProvider := env.getProviderForSite remoteSite
    let limit := env.getProviderBatchLimit remoteProvider
    sync_loop_schedule env projectName localSite remoteSite preset.config limit syncRepres

/-- Outcome of one awaited task as seen through
`asyncio.gather(*tasks, return_exceptions=True)`: either the returned
provider file id or the exception the task raised. -/
inductive TaskResult where
  | ok (fileId : String)
  | exc (e : PyExc)
deriving DecidableEq, Repr

/-- One call of `module.update_db` with the arguments `sync_loop` passes. -/
structure DbUpdate where
  projectName : String
  fileId : Option String
  file : SFile
  repreId : String
  site : String
  error : Option String
deriving DecidableEq, Repr

/-- The body of the write-back loop of `sync_loop` for one `(file_id, info)`
pair: `error = None`; when the gathered value is an exception, store
`str(exception)` and clear the file id. -/
def sync_loop_update_db_call (r : TaskResult) (info : TaskInfo) : DbUpdate :=
  match r with
  | .ok fid => ⟨info.projectName, some fid, info.file, info.repreId, info.site, none⟩
  | .exc e => ⟨info.projectName, none, info.file, info.repreId, info.site, some e.str⟩

/-- The write-back pass of `sync_loop`: `zip(files_created,
files_processed_info)` mapped through one `update_db` call each. -/
def sync_loop_update_pass (filesCreated : List TaskResult)
    (filesProcessedInfo : List TaskInfo) : List DbUpdate :=
  (filesCreated.zip filesProcessedInfo).map (fun ri => sync_loop_update_db_call ri.1 ri.2)

/-- How one `sync_loop` iteration can end: normally, or with one of the
exceptions distinguished by the `except` clauses at its end. -/
inductive IterOutcome where
  | ok
  | connectionReset
  | cancelled
  | resumable
  | otherException
deriving DecidableEq, Repr

/-- The control state of the sync server thread observed by the loops. -/
structure LoopCtl where
  isRunning : Bool
deriving DecidableEq, Repr

/-- `SyncServerThread.stop`. -/
def thread_stop (st : LoopCtl) : LoopCtl :=
  { st with isRunning := false }

/-- The `except` clause chain at the end of a `sync_loop` iteration:
`ConnectionResetError` and `ResumableError` are logged only,
`CancelledError` is passed over, and any other exception calls
`self.stop()`. -/
def sync_loop_handle_outcome (st : LoopCtl) : IterOutcome → LoopCtl
  | .ok => st
  | .connectionReset => st
  | .cancelled => st
  | .resumable => st
  | .otherException => thread_stop st

/-- The `while self.is_running and not self.module.is_paused()` guard of
`sync_loop`. -/
def sync_loop_continues (st : LoopCtl) (modulePaused : Bool) : Bool :=
  st.isRunning && !modulePaused

/-- The inter-iteration timer task created by
`self.timer = asyncio.create_task(self.run_timer(delay))`. -/
structure TimerTask where
  delay : Nat
  cancelled : Bool
deriving DecidableEq, Repr

/-- `asyncio.Task.cancel` on the timer task. -/
def TimerTask.cancel (t : TimerTask) : TimerTask :=
  { t with cancelled := true }

/-- `run_timer` wrapped in `create_task`: a fresh, uncancelled timer. -/
def run_timer (delay : Nat) : TimerTask :=
  ⟨delay, false⟩

/-- The thread state `reset_timer` manipulates. -/
structure ThreadState where
  ctl : LoopCtl
  timer : Option TimerTask
deriving DecidableEq, Repr

/-- `SyncServerThread.reset_timer`: when a timer task is pending, cancel it
and clear the reference.  Also returns the (shared) task object the loop is
awaiting, in its state after the call. -/
def reset_timer (st : ThreadState) : ThreadState × Option TimerTask :=
  match st.timer with
  | some t => ({ st with timer := none }, some t.cancel)
  | none => (st, none)

/-- Model of `await asyncio.gather(self.timer)` (asyncio semantics): a
cancelled task raises `CancelledError` into the awaiter without the
remaining delay elapsing; an uncancelled timer sleeps out its delay and
returns normally.  The second component is the time waited. -/
def await_timer (t : TimerTask) : IterOutcome × Nat :=
  if t.cancelled then (IterOutcome.cancelled, 0) else (IterOutcome.ok, t.delay)

/-- Observable events of one `upload` call. -/
inductive UploadEvent where
  | printedException (e : PyExc)
  | calledCreateFolder (target : String)
  | raisedNotADirectory (target : String)
  | calledUploadFile (localPath remotePath : String)
  | calledHandleAlternateSite (fileId : String)
deriving DecidableEq, Repr

/-- `resolve_paths`: resolve the remote path through the remote handler when
one is given (otherwise the empty string), then the local path through a
`local_drive` provider bound to the project's active site.
`remoteSiteName` is accepted and unused, as in the source. -/
def resolve_paths (env : ModuleEnv) (filePath projectName : String)
    (remoteSiteName : Option String) (remoteHandler : Option Handler) :
    Except PyExc (String × String) := do
  let _ := remoteSiteName
  let remoteFilePath ← match remoteHandler with
    | some h => h.resolvePath filePath
    | none => pure ""
  let localHandler :=
    env.getProvider "local_drive" projectName (env.getActiveSite projectName) none
  let localFilePath ← localHandler.resolvePath filePath
  pure (localFilePath, remoteFilePath)

/-- `upload`: build the remote handler, resolve both paths inside a
`try/except` that only prints a failure (so that on failure the path locals
stay unbound and the following read of `remote_file_path` raises
`UnboundLocalError`), ensure the target folder exists (raising
`NotADirectoryError` when `create_folder` returns a falsy id), run
`upload_file`, and reconcile alternate sites.  Returns the result together
with the list of observable events. -/
def upload (env : ModuleEnv) (projectName : String) (file : SFile)
    (providerName remoteSiteName : String) (preset : Option SiteConfig) :
    Except PyExc String × List UploadEvent :=
  let remoteHandler := env.getProvider providerName projectName remoteSiteName preset
  let filePath := file.path
  match resolve_paths env filePath projectName (some remoteSiteName) (some remoteHandler) with
  | .error exp =>
      (.error (.unboundLocalError "remote_file_path"), [.printedException exp])
  | .ok (localFilePath, remoteFilePath) =>
      let targetFolder := dirname remoteFilePath
      match remoteHandler.createFolder targetFolder with
      | .error e => (.error e, [.calledCreateFolder targetFolder])
      | .ok folderId =>
          if !pyTruthyStrOpt folderId then
            (.error (.notADirectoryError
                ("Folder " ++ targetFolder ++ " wasn\x27t created. Check permissions.")),
             [.calledCreateFolder targetFolder, .raisedNotADirectory targetFolder])
          else
            match remoteHandler.uploadFile localFilePath remoteFilePath with
            | .error e =>
                (.error e,
                 [.calledCreateFolder targetFolder,
                  .calledUploadFile localFilePath remoteFilePath])
            | .ok fileId =>
                (.ok fileId,
                 [.calledCreateFolder targetFolder,
                  .calledUploadFile localFilePath remoteFilePath,
                  .calledHandleAlternateSite fileId])

/-- A queued long-running task: `{"func": ..., "project_name": ...}`, the
function modelled by an opaque id. -/
structure LongRunningTask where
  funcId : Nat
  projectName : String
deriving DecidableEq, Repr

/-- The module state `check_shutdown` manipulates: the
`long_running_tasks` list and the `projects_processed` set. -/
structure ModuleTaskState where
  longRunningTasks : List LongRunningTask
  projectsProcessed : List String
deriving DecidableEq, Repr

/-- Result of one poll cycle of `check_shutdown`: the new module state and
the tasks executed during the cycle. -/
structure CycleResult where
  state : ModuleTaskState
  executed : List LongRunningTask
deriving DecidableEq, Repr

/-- One poll cycle of the `while self.is_running` body of `check_shutdown`:
when the queue list is non-empty, `list.pop()` takes its LAST element, the
task is run on the executor, and its project name is removed from the
`projects_processed` set; then the cycle sleeps 0.5 s. -/
def check_shutdown_cycle (st : ModuleTaskState) : CycleResult :=
  match st.longRunningTasks.getLast? with
  | none => ⟨st, []⟩
  | some task =>
      ⟨⟨st.longRunningTasks.dropLast,
        st.projectsProcessed.filter (fun p => !(p == task.projectName))⟩,
       [task]⟩

/-- Modelled from the spec: submission of a long-running task appends the
`(function, project_name)` pair to the externally-submitted list
(`SyncServerModule.long_running_tasks` is outside the sources; spec
section 4.6 describes the queue as "a list of externally-submitted
(function, project_name) pairs"). -/
def submit_long_running_task (st : ModuleTaskState) (t : LongRunningTask) :
    ModuleTaskState :=
  { st with longRunningTasks := st.longRunningTasks ++ [t] }

/-- The relation between one gathered task outcome, its recorded info and
the `update_db` call made for it: success stores the provider file id and
no error, an exception stores no file id and the stringified exception. -/
def updateMatches (r : TaskResult) (info : TaskInfo) (u : DbUpdate) : Prop :=
  u.projectName = info.projectName ∧ u.file = info.file ∧
  u.repreId = info.repreId ∧ u.site = info.site ∧
  (match r with
   | .ok fid => u.fileId = some fid ∧ u.error = none
   | .exc e => u.fileId = none ∧ u.error = some e.str)

/-- Invariant of the scheduling state: scheduled tasks have pairwise
distinct file paths, and every scheduled path is recorded in
`processed_file_path`. -/
def SchedInv (st : SchedState) : Prop :=
  (st.tasks.map (fun t => t.file.path)).Nodup ∧
  ∀ t ∈ st.tasks, t.file.path ∈ st.processedFilePath

/-- A concrete, fully functional provider handler for witnesses. -/
def testHandler : Handler :=
  { resolvePath := fun p => .ok ("/root/" ++ p)
    createFolder := fun _ => .ok (some "folder1")
    uploadFile := fun _ _ => .ok "remoteid1"
    downloadFile := fun _ _ => .ok "localid1"
    isActive := true }

/-- A handler whose `create_folder` yields no folder id. -/
def noFolderHandler : Handler :=
  { testHandler with createFolder := fun _ => .ok none }

/-- A handler whose `resolve_path` raises. -/
def resolveFailHandler : Handler :=
  { testHandler with resolvePath := fun _ => .error (.other "boom") }

/-- A concrete module environment for witnesses: one enabled project with
active site `studio`, remote site `gdrive`, both configured, one
representation `r1` with two files of distinct paths, every file reported
DO_UPLOAD, and a provider batch limit of 1. -/
def testEnv : ModuleEnv :=
  { isProjectPaused := fun _ => false
    getActiveSite := fun _ => "studio"
    getRemoteSite := fun _ => "gdrive"
    getSyncProjectSetting := fun _ => ⟨true, [("studio", ⟨[]⟩), ("gdrive", ⟨[]⟩)], ⟨[]⟩⟩
    defaultSiteConfigs := [("studio", ⟨[]⟩), ("gdrive", ⟨[]⟩)]
    getProviderForSite := fun s => if s == "gdrive" then "gdrive" else "local_drive"
    getSyncRepresentations := fun _ _ _ => [⟨"r1", [⟨"f1", "a.txt"⟩, ⟨"f2", "b.txt"⟩]⟩]
    isRepresentationPaused := fun _ => false
    checkStatus := fun _ _ _ _ => SyncStatus.doUpload
    getProviderBatchLimit := fun _ => 1
    getProvider := fun _ _ _ _ => testHandler }

/-- `testEnv` with a paused project. -/
def pausedEnv : ModuleEnv :=
  { testEnv with isProjectPaused := fun _ => true }

/-- `testEnv` with the failing-folder handler. -/
def noFolderEnv : ModuleEnv :=
  { testEnv with getProvider := fun _ _ _ _ => noFolderHandler }

/-- `testEnv` with the failing-resolve handler. -/
def resolveFailEnv : ModuleEnv :=
  { testEnv with getProvider := fun _ _ _ _ => resolveFailHandler }

theorem sync_loop_process_file_cases (env : ModuleEnv)
    (pn ls rs : String) (cfg : SiteConfig) (sync : Repre)
    (st : SchedState) (file : SFile) :
    sync_loop_process_file env pn ls rs cfg sync st file = st ∨
    (file.path ∉ st.processedFilePath ∧
     ∃ t i, t.file = file ∧
       sync_loop_process_file env pn ls rs cfg sync st file =
         ⟨st.limit - 1, st.processedFilePath ++ [file.path],
          st.tasks ++ [t], st.infos ++ [i]⟩) := by
  by_cases h : file.path ∈ st.processedFilePath
  · left
    simp [sync_loop_process_file, h]
  · rcases hs : env.checkStatus file ls rs cfg with _ | _ | _ | _ | _
    · left; simp [sync_loop_process_file, h, hs]
    · right
      refine ⟨h, ⟨Direction.up, file, sync.id, rs⟩, ⟨file, sync.id, rs, pn⟩, rfl, ?_⟩
      simp [sync_loop_process_file, h, hs]
    · right
      refine ⟨h, ⟨Direction.down, file, sync.id, rs⟩, ⟨file, sync.id, ls, pn⟩, rfl, ?_⟩
      simp [sync_loop_process_file, h, hs]
    · left; simp [sync_loop_process_file, h, hs]
    · left; simp [sync_loop_process_file, h, hs]

theorem foldl_process_file_conserve (env : ModuleEnv) (pn ls rs : String)
    (cfg : SiteConfig) (sync : Repre) :
    ∀ (files : List SFile) (st : SchedState),
      (files.foldl (sync_loop_process_file env pn ls rs cfg sync) st).limit +
        ((files.foldl (sync_loop_process_file env pn ls rs cfg sync) st).tasks.length : Int) =
      st.limit + (st.tasks.length : Int) := by
  intro files
  induction files with
  | nil => intro st; rfl
  | cons f fs ih =>
    intro st
    rw [List.foldl_cons, ih]
    rcases sync_loop_process_file_cases env pn ls rs cfg sync st f with heq | ⟨-, t, i, -, heq⟩
    · rw [heq]
    · rw [heq]
      simp only [List.length_append, List.length_cons, List.length_nil]
      push_cast
      ring

theorem foldl_process_file_limit (env : ModuleEnv) (pn ls rs : String)
    (cfg : SiteConfig) (sync : Repre) :
    ∀ (files : List SFile) (st : SchedState),
      st.limit - (files.length : Int) ≤
        (files.foldl (sync_loop_process_file env pn ls rs cfg sync) st).limit := by
  intro files
  induction files with
  | nil => intro st; simp
  | cons f fs ih =>
    intro st
    rw [List.foldl_cons]
    have hb := ih (sync_loop_process_file env pn ls rs cfg sync st f)
    rcases sync_loop_process_file_cases env pn ls rs cfg sync st f with heq | ⟨-, t, i, -, heq⟩
      <;> rw [heq] at hb ⊢ <;> simp only [List.length_cons] <;> push_cast at hb ⊢ <;> omega

theorem foldl_process_file_infos (env : ModuleEnv) (pn ls rs : String)
    (cfg : SiteConfig) (sync : Repre) :
    ∀ (files : List SFile) (st : SchedState),
      st.infos.length = st.tasks.length →
      (files.foldl (sync_loop_process_file env pn ls rs cfg sync) st).infos.length =
        (files.foldl (sync_loop_process_file env pn ls rs cfg sync) st).tasks.length := by
  intro files
  induction files with
  | nil => intro st h; exact h
  | cons f fs ih =>
    intro st h
    rw [List.foldl_cons]
    apply ih
    rcases sync_loop_process_file_cases env pn ls rs cfg sync st f with heq | ⟨-, t, i, -, heq⟩
      <;> rw [heq] <;> simp [h]

theorem process_file_inv (env : ModuleEnv) (pn ls rs : String)
    (cfg : SiteConfig) (sync : Repre) (st : SchedState) (file : SFile)
    (h : SchedInv st) :
    SchedInv (sync_loop_process_file env pn ls rs cfg sync st file) := by
  rcases sync_loop_process_file_cases env pn ls rs cfg sync st file with
    heq | ⟨hnot, t, i, ht, heq⟩
  · rw [heq]; exact h
  · rw [heq]
    constructor
    · simp only [List.map_append, List.map_cons, List.map_nil, ht]
      rw [List.nodup_append]
      refine ⟨h.1, List.nodup_singleton _, ?_⟩
      intro p hp hq
      rcases List.mem_map.mp hp with ⟨t', ht', hpt⟩
      rcases List.mem_singleton.mp hq with rfl
      exact hnot (hpt ▸ h.2 t' ht')
    · intro t' ht'
      rcases List.mem_append.mp ht' with hl | hr
      · exact List.mem_append_left _ (h.2 t' hl)
      · rcases List.mem_singleton.mp hr with rfl
        rw [ht]
        exact List.mem_append_right _ (List.mem_singleton.mpr rfl)

theorem foldl_process_file_inv (env : ModuleEnv) (pn ls rs : String)
    (cfg : SiteConfig) (sync : Repre) :
    ∀ (files : List SFile) (st : SchedState),
      SchedInv st →
      SchedInv (files.foldl (sync_loop_process_file env pn ls rs cfg sync) st) := by
  intro files
  induction files with
  | nil => intro st h; exact h
  | cons f fs ih =>
    intro st h
    exact ih _ (process_file_inv env pn ls rs cfg sync st f h)

theorem process_repre_conserve (env : ModuleEnv) (pn ls rs : String)
    (cfg : SiteConfig) (st : SchedState) (sync : Repre) :
    (sync_loop_process_repre env pn ls rs cfg st sync).limit +
      ((sync_loop_process_repre env pn ls rs cfg st sync).tasks.length : Int) =
    st.limit + (st.tasks.length : Int) := by
  unfold sync_loop_process_repre
  split
  · rfl
  · split
    · rfl
    · exact foldl_process_file_conserve env pn ls rs cfg sync sync.files st

theorem process_repre_limit (env : ModuleEnv) (pn ls rs : String)
    (cfg : SiteConfig) (F : Nat) (st : SchedState) (sync : Repre)
    (hF : sync.files.length ≤ F)
    (h : (1 : Int) - (F : Int) ≤ st.limit) :
    (1 : Int) - (F : Int) ≤ (sync_loop_process_repre env pn ls rs cfg st sync).limit := by
  unfold sync_loop_process_repre
  split
  · exact h
  · split
    · exact h
    · rename_i hpos
      have hb := foldl_process_file_limit env pn ls rs cfg sync sync.files st
      have hc : (sync.files.length : Int) ≤ (F : Int) := by exact_mod_cast hF
      omega

theorem process_repre_infos (env : ModuleEnv) (pn ls rs : String)
    (cfg : SiteConfig) (st : SchedState) (sync : Repre)
    (h : st.infos.length = st.tasks.length) :
    (sync_loop_process_repre env pn ls rs cfg st sync).infos.length =
      (sync_loop_process_repre env pn ls rs cfg st sync).tasks.length := by
  unfold sync_loop_process_repre
  split
  · exact h
  · split
    · exact h
    · exact foldl_process_file_infos env pn ls rs cfg sync sync.files st h

theorem process_repre_inv (env : ModuleEnv) (pn ls rs : String)
    (cfg : SiteConfig) (st : SchedState) (sync : Repre)
    (h : SchedInv st) :
    SchedInv (sync_loop_process_repre env pn ls rs cfg st sync) := by
  unfold sync_loop_process_repre
  split
  · exact h
  · split
    · exact h
    · exact foldl_process_file_inv env pn ls rs cfg sync sync.files st h

theorem schedule_foldl_conserve (env : ModuleEnv) (pn ls rs : String)
    (cfg : SiteConfig) :
    ∀ (reps : List Repre) (st : SchedState),
      (reps.foldl (sync_loop_process_repre env pn ls rs cfg) st).limit +
        ((reps.foldl (sync_loop_process_repre env pn ls rs cfg) st).tasks.length : Int) =
      st.limit + (st.tasks.length : Int) := by
  intro reps
  induction reps with
  | nil => intro st; rfl
  | cons r rs' ih =>
    intro st
    rw [List.foldl_cons, ih, process_repre_conserve]

theorem schedule_foldl_limit (env : ModuleEnv) (pn ls rs : String)
    (cfg : SiteConfig) (F : Nat) :
    ∀ (reps : List Repre) (st : SchedState),
      (∀ r ∈ reps, r.files.length ≤ F) →
      (1 : Int) - (F : Int) ≤ st.limit →
      (1 : Int) - (F : Int) ≤
        (reps.foldl (sync_loop_process_repre env pn ls rs cfg) st).limit := by
  intro reps
  induction reps with
  | nil => intro st _ h; exact h
  | cons r rs' ih =>
    intro st hall h
    rw [List.foldl_cons]
    exact ih _ (fun r' hr' => hall r' (List.mem_cons_of_mem _ hr'))
      (process_repre_limit env pn ls rs cfg F st r (hall r (List.mem_cons_self r rs')) h)

theorem schedule_foldl_infos (env : ModuleEnv) (pn ls rs : String)
    (cfg : SiteConfig) :
    ∀ (reps : List Repre) (st : SchedState),
      st.infos.length = st.tasks.length →
      (reps.foldl (sync_loop_process_repre env pn ls rs cfg) st).infos.length =
        (reps.foldl (sync_loop_process_repre env pn ls rs cfg) st).tasks.length := by
  intro reps
  induction reps with
  | nil => intro st h; exact h
  | cons r rs' ih =>
    intro st h
    rw [List.foldl_cons]
    exact ih _ (process_repre_infos env pn ls rs cfg st r h)

theorem schedule_foldl_inv (env : ModuleEnv) (pn ls rs : String)
    (cfg : SiteConfig) :
    ∀ (reps : List Repre) (st : SchedState),
      SchedInv st →
      SchedInv (reps.foldl (sync_loop_process_repre env pn ls rs cfg) st) := by
  intro reps
  induction reps with
  | nil => intro st h; exact h
  | cons r rs' ih =>
    intro st h
    rw [List.foldl_cons]
    exact ih _ (process_repre_inv env pn ls rs cfg st r h)

/-- C1 counterexample: in `testEnv` the provider batch limit is K = 1 and
M = 2 ≥ K files are eligible for transfer (one representation with two
distinct-path files, both DO_UPLOAD), yet the iteration schedules 2 > K
transfer tasks: `sync_loop` checks `limit <= 0` only at representation
boundaries, never inside the file loop. -/
theorem sync_loop_batch_limit_counterexample :
    testEnv.getProviderBatchLimit (testEnv.getProviderForSite "gdrive") = 1 ∧
    (sync_loop_process_project testEnv "P").tasks.length = 2 ∧
    ¬ ((sync_loop_process_project testEnv "P").tasks.length ≤ 1) := by
  have h2 : (sync_loop_process_project testEnv "P").tasks.length = 2 := rfl
  exact ⟨rfl, h2, by rw [h2]; omega⟩

/-- C1 (amended): the batch limit K is decremented per scheduled file but
checked only at representation boundaries (`if limit <= 0: continue` in the
`for sync in sync_repres` loop), so a representation whose processing began
with a positive remaining limit schedules all its eligible files.  Hence
when every representation holds at most F files (F ≥ 1, K ≥ 0), at most
K + F - 1 transfer tasks are scheduled in the iteration — at most K when
representations hold at most one file each — and the remaining
representations are left for a subsequent iteration. -/
theorem sync_loop_batch_limit_amended (env : ModuleEnv) (pn ls rs : String)
    (cfg : SiteConfig) (K : Int) (reps : List Repre) (F : Nat)
    (hK : 0 ≤ K) (hF1 : 1 ≤ F)
    (hF : ∀ r ∈ reps, r.files.length ≤ F) :
    ((sync_loop_schedule env pn ls rs cfg K reps).tasks.length : Int) ≤
      K + (F : Int) - 1 := by
  have hc := schedule_foldl_conserve env pn ls rs cfg reps (initSched K)
  have hF1i : (1 : Int) ≤ (F : Int) := by exact_mod_cast hF1
  have hl := schedule_foldl_limit env pn ls rs cfg F reps (initSched K) hF
    (by simp only [initSched]; omega)
  unfold sync_loop_schedule
  simp only [initSched, List.length_nil, Nat.cast_zero, add_zero] at hc hl ⊢
  omega

/-- C1 witness for the amended bound: K = 1, F = 2, one representation with
two eligible files — the schedule stays within K + F - 1 = 2 tasks. -/
theorem sync_loop_batch_limit_amended_witness :
    ((sync_loop_schedule testEnv "P" "studio" "gdrive" ⟨[]⟩ 1
        [⟨"r1", [⟨"f1", "a.txt"⟩, ⟨"f2", "b.txt"⟩]⟩]).tasks.length : Int) ≤
      1 + ((2 : Nat) : Int) - 1 :=
  sync_loop_batch_limit_amended testEnv "P" "studio" "gdrive" ⟨[]⟩ 1
    [⟨"r1", [⟨"f1", "a.txt"⟩, ⟨"f2", "b.txt"⟩]⟩] 2
    (by omega) (by omega) (by decide)

/-- C5: within one project's loop iteration at most one transfer task is
created per file path — the scheduled tasks of an iteration have pairwise
distinct file paths — and a file whose path is already in
`processed_file_path` is skipped, leaving the scheduling state unchanged. -/
theorem sync_loop_dedup (env : ModuleEnv) (pn ls rs : String) (cfg : SiteConfig)
    (limit : Int) (reps : List Repre) :
    ((sync_loop_schedule env pn ls rs cfg limit reps).tasks.map
        (fun t => t.file.path)).Nodup ∧
    ∀ (st : SchedState) (sync : Repre) (file : SFile),
      file.path ∈ st.processedFilePath →
      sync_loop_process_file env pn ls rs cfg sync st file = st := by
  constructor
  · exact (schedule_foldl_inv env pn ls rs cfg reps (initSched limit)
      ⟨by simp [initSched], by intro t ht; simp [initSched] at ht⟩).1
  · intro st sync file h
    simp [sync_loop_process_file, h]

/-- C5 witness: the two-file iteration yields distinct scheduled paths, and
a concrete second occurrence of an already processed path is skipped. -/
theorem sync_loop_dedup_witness :
    ((sync_loop_schedule testEnv "P" "studio" "gdrive" ⟨[]⟩ 5
        [⟨"r1", [⟨"f1", "a.txt"⟩, ⟨"f2", "b.txt"⟩]⟩]).tasks.map
        (fun t => t.file.path)).Nodup ∧
    sync_loop_process_file testEnv "P" "studio" "gdrive" ⟨[]⟩ ⟨"r1", []⟩
      ⟨5, ["a.txt"], [], []⟩ ⟨"f1", "a.txt"⟩ = ⟨5, ["a.txt"], [], []⟩ :=
  ⟨(sync_loop_dedup testEnv "P" "studio" "gdrive" ⟨[]⟩ 5
      [⟨"r1", [⟨"f1", "a.txt"⟩, ⟨"f2", "b.txt"⟩]⟩]).1,
   (sync_loop_dedup testEnv "P" "studio" "gdrive" ⟨[]⟩ 5
      [⟨"r1", [⟨"f1", "a.txt"⟩, ⟨"f2", "b.txt"⟩]⟩]).2
     ⟨5, ["a.txt"], [], []⟩ ⟨"r1", []⟩ ⟨"f1", "a.txt"⟩ (by decide)⟩

theorem update_pass_forall (results : List TaskResult) (infos : List TaskInfo) :
    List.Forall₂ (fun (ri : TaskResult × TaskInfo) u => updateMatches ri.1 ri.2 u)
      (results.zip infos) (sync_loop_update_pass results infos) := by
  unfold sync_loop_update_pass
  rw [List.forall₂_map_right_iff]
  refine List.forall₂_same.mpr ?_
  intro ri _
  rcases ri with ⟨r, i⟩
  rcases r with fid | e <;> simp [updateMatches, sync_loop_update_db_call]

/-- C2: for an iteration's batch, `update_db` is called exactly once per
scheduled task (the info list is kept in lockstep with the task list and
the write-back pass zips the gathered results with it), a successful task
stores its provider file id with `error = None`, a task that raised stores
`file_id = None` with the stringified exception — and one exceptional entry
never suppresses the updates of its siblings, every index being written
back regardless of the other entries. -/
theorem sync_loop_update_db_once (env : ModuleEnv) (pn ls rs : String)
    (cfg : SiteConfig) (limit : Int) (reps : List Repre)
    (results : List TaskResult)
    (hlen : results.length =
      (sync_loop_schedule env pn ls rs cfg limit reps).tasks.length) :
    (sync_loop_schedule env pn ls rs cfg limit reps).infos.length =
      (sync_loop_schedule env pn ls rs cfg limit reps).tasks.length ∧
    (sync_loop_update_pass results
        (sync_loop_schedule env pn ls rs cfg limit reps).infos).length =
      results.length ∧
    List.Forall₂ (fun (ri : TaskResult × TaskInfo) u => updateMatches ri.1 ri.2 u)
      (results.zip (sync_loop_schedule env pn ls rs cfg limit reps).infos)
      (sync_loop_update_pass results
        (sync_loop_schedule env pn ls rs cfg limit reps).infos) := by
  have hinfos : (sync_loop_schedule env pn ls rs cfg limit reps).infos.length =
      (sync_loop_schedule env pn ls rs cfg limit reps).tasks.length :=
    schedule_foldl_infos env pn ls rs cfg reps (initSched limit) rfl
  refine ⟨hinfos, ?_, update_pass_forall _ _⟩
  unfold sync_loop_update_pass
  rw [List.length_map, List.length_zip, hinfos, ← hlen, Nat.min_self]

/-- C2 witness: two scheduled tasks, one gathered success and one gathered
exception — both are written back. -/
theorem sync_loop_update_db_once_witness :
    (sync_loop_update_pass
        [TaskResult.ok "idA", TaskResult.exc (PyExc.other "disk full")]
        (sync_loop_schedule testEnv "P" "studio" "gdrive" ⟨[]⟩ 5
          [⟨"r1", [⟨"f1", "a.txt"⟩, ⟨"f2", "b.txt"⟩]⟩]).infos).length = 2 :=
  (sync_loop_update_db_once testEnv "P" "studio" "gdrive" ⟨[]⟩ 5
    [⟨"r1", [⟨"f1", "a.txt"⟩, ⟨"f2", "b.txt"⟩]⟩]
    [TaskResult.ok "idA", TaskResult.exc (PyExc.other "disk full")]
    (by decide)).2.1

/-- C4: when the project is paused, or the active site equals the remote
site, or either site is not among the configured sites, `_working_sites`
returns `(None, None)` and the iteration creates no transfer task for the
project; moreover a site is configured only when the project setting is
enabled and its provider handler reports `is_active()`. -/
theorem working_sites_gate (env : ModuleEnv) (pn : String)
    (h : env.isProjectPaused pn = true ∨
         env.getActiveSite pn = env.getRemoteSite pn ∨
         env.getActiveSite pn ∉ get_configured_sites env pn ∨
         env.getRemoteSite pn ∉ get_configured_sites env pn) :
    working_sites env pn = (none, none) ∧
    (sync_loop_process_project env pn).tasks = [] ∧
    (∀ s, s ∈ get_configured_sites env pn →
      (env.getSyncProjectSetting pn).enabled = true ∧
      ∃ cfg, (s, cfg) ∈ dictUpdate env.defaultSiteConfigs
          (env.getSyncProjectSetting pn).sites ∧
        (env.getProvider (env.getProviderForSite s) pn s (some cfg)).isActive = true) := by
  have hws : working_sites env pn = (none, none) := by
    by_cases hp : env.isProjectPaused pn = true
    · simp [working_sites, hp]
    · by_cases heq : env.getActiveSite pn = env.getRemoteSite pn
      · simp [working_sites, hp, heq]
      · rcases h with hp' | heq' | hl | hr
        · exact absurd hp' hp
        · exact absurd heq' heq
        · simp [working_sites, hp, heq]
          intro hmem
          exact absurd hmem hl
        · simp [working_sites, hp, heq]
          intro _
          exact hr
  have hpp : (sync_loop_process_project env pn).tasks = [] := by
    simp only [sync_loop_process_project, hws, pyTruthyStrOpt, Bool.and_self,
      Bool.not_false, if_true, initSched]
  refine ⟨hws, hpp, ?_⟩
  intro s hs
  by_cases he : (env.getSyncProjectSetting pn).enabled = true
  · refine ⟨he, ?_⟩
    simp only [get_configured_sites, get_configured_sites_from_setting, he,
      Bool.not_true, Bool.false_eq_true, if_false, List.mem_map] at hs
    rcases hs with ⟨kv, hkv, rfl⟩
    rcases List.mem_filter.mp hkv with ⟨hmem, hpred⟩
    exact ⟨kv.2, by simpa using hmem, by simpa using hpred⟩
  · have : get_configured_sites env pn = [] := by
      simp [get_configured_sites, get_configured_sites_from_setting, he]
    rw [this] at hs
    exact absurd hs (List.not_mem_nil s)

/-- C4 witness: a paused project yields `(None, None)` and no tasks. -/
theorem working_sites_gate_witness :
    working_sites pausedEnv "P" = (none, none) ∧
    (sync_loop_process_project pausedEnv "P").tasks = [] ∧
    (∀ s, s ∈ get_configured_sites pausedEnv "P" →
      (pausedEnv.getSyncProjectSetting "P").enabled = true ∧
      ∃ cfg, (s, cfg) ∈ dictUpdate pausedEnv.defaultSiteConfigs
          (pausedEnv.getSyncProjectSetting "P").sites ∧
        (pausedEnv.getProvider (pausedEnv.getProviderForSite s) "P" s
          (some cfg)).isActive = true) :=
  working_sites_gate pausedEnv "P" (Or.inl rfl)

/-- C3: an iteration ending in `ConnectionResetError` or `ResumableError`
leaves `is_running` untouched, so a running, unpaused loop continues with
the next iteration; a cancellation is likewise absorbed; any other
unhandled exception calls `stop()`, setting `is_running` to false, and the
loop no longer continues. -/
theorem sync_loop_error_policy (st : LoopCtl) (paused : Bool)
    (hrun : st.isRunning = true) (hp : paused = false) :
    sync_loop_handle_outcome st IterOutcome.connectionReset = st ∧
    sync_loop_continues (sync_loop_handle_outcome st IterOutcome.connectionReset) paused = true ∧
    sync_loop_handle_outcome st IterOutcome.resumable = st ∧
    sync_loop_continues (sync_loop_handle_outcome st IterOutcome.resumable) paused = true ∧
    sync_loop_continues (sync_loop_handle_outcome st IterOutcome.cancelled) paused = true ∧
    (sync_loop_handle_outcome st IterOutcome.otherException).isRunning = false ∧
    sync_loop_continues (sync_loop_handle_outcome st IterOutcome.otherException) paused = false := by
  cases st
  simp_all [sync_loop_handle_outcome, sync_loop_continues, thread_stop]

/-- C3 witness: the error policy at the concrete running, unpaused state. -/
theorem sync_loop_error_policy_witness :
    sync_loop_handle_outcome ⟨true⟩ IterOutcome.connectionReset = ⟨true⟩ ∧
    sync_loop_continues (sync_loop_handle_outcome ⟨true⟩ IterOutcome.connectionReset) false = true ∧
    sync_loop_handle_outcome ⟨true⟩ IterOutcome.resumable = ⟨true⟩ ∧
    sync_loop_continues (sync_loop_handle_outcome ⟨true⟩ IterOutcome.resumable) false = true ∧
    sync_loop_continues (sync_loop_handle_outcome ⟨true⟩ IterOutcome.cancelled) false = true ∧
    (sync_loop_handle_outcome ⟨true⟩ IterOutcome.otherException).isRunning = false ∧
    sync_loop_continues (sync_loop_handle_outcome ⟨true⟩ IterOutcome.otherException) false = false :=
  sync_loop_error_policy ⟨true⟩ false rfl rfl

/-- C8: calling `reset_timer` while a timer task is pending cancels that
task and clears the reference; awaiting the cancelled task yields the
cancellation immediately (zero remaining delay) rather than the full
sleep, the `except CancelledError: pass` clause absorbs it without touching
`is_running`, and the running loop proceeds to its next iteration. -/
theorem reset_timer_skips_delay (st : ThreadState) (t : TimerTask)
    (htimer : st.timer = some t) (hrun : st.ctl.isRunning = true) :
    (reset_timer st).2 = some t.cancel ∧
    (reset_timer st).1.timer = none ∧
    await_timer t.cancel = (IterOutcome.cancelled, 0) ∧
    sync_loop_handle_outcome st.ctl IterOutcome.cancelled = st.ctl ∧
    sync_loop_continues (sync_loop_handle_outcome st.ctl IterOutcome.cancelled) false = true := by
  refine ⟨?_, ?_, ?_, rfl, ?_⟩
  · simp [reset_timer, htimer]
  · simp [reset_timer, htimer]
  · simp [await_timer, TimerTask.cancel]
  · simp [sync_loop_handle_outcome, sync_loop_continues, hrun]

/-- C8 witness: a pending 60-second timer in a running thread. -/
theorem reset_timer_skips_delay_witness :
    (reset_timer ⟨⟨true⟩, some (run_timer 60)⟩).2 = some (run_timer 60).cancel ∧
    (reset_timer ⟨⟨true⟩, some (run_timer 60)⟩).1.timer = none ∧
    await_timer (run_timer 60).cancel = (IterOutcome.cancelled, 0) ∧
    sync_loop_handle_outcome ⟨true⟩ IterOutcome.cancelled = ⟨true⟩ ∧
    sync_loop_continues (sync_loop_handle_outcome ⟨true⟩ IterOutcome.cancelled) false = true :=
  reset_timer_skips_delay ⟨⟨true⟩, some (run_timer 60)⟩ (run_timer 60) rfl rfl

/-- C7: `resolve_paths` returns the pair of the path resolved by a
`local_drive` provider bound to the project's active site and the path
resolved by the remote handler when one is supplied — the empty string for
the remote component otherwise. -/
theorem resolve_paths_spec (env : ModuleEnv) (filePath pn : String)
    (rsn : Option String) (remoteHandler : Option Handler) :
    (∀ lp, (env.getProvider "local_drive" pn (env.getActiveSite pn) none).resolvePath
          filePath = Except.ok lp →
      resolve_paths env filePath pn rsn none = Except.ok (lp, "")) ∧
    (∀ h rp lp, remoteHandler = some h →
      h.resolvePath filePath = Except.ok rp →
      (env.getProvider "local_drive" pn (env.getActiveSite pn) none).resolvePath
          filePath = Except.ok lp →
      resolve_paths env filePath pn rsn remoteHandler = Except.ok (lp, rp)) := by
  constructor
  · intro lp hlp
    simp [resolve_paths, hlp]
  · intro h rp lp hrh hremote hlocal
    subst hrh
    simp [resolve_paths, hremote, hlocal, bind, Except.bind, pure, Except.pure]

/-- C7 witness: with `testEnv` and `testHandler` both components resolve. -/
theorem resolve_paths_spec_witness :
    resolve_paths testEnv "a.txt" "P" none (some testHandler) =
      Except.ok ("/root/a.txt", "/root/a.txt") :=
  (resolve_paths_spec testEnv "a.txt" "P" none (some testHandler)).2
    testHandler "/root/a.txt" "/root/a.txt" rfl rfl rfl

/-- C9: when `resolve_paths` raises inside `upload`, the exception is
caught and only printed; the path locals stay unassigned, so the following
read of `remote_file_path` fails with `UnboundLocalError` instead of
reporting the path-resolution failure — and neither `create_folder` nor
`upload_file` is ever invoked. -/
theorem upload_swallows_resolve_error (env : ModuleEnv) (pn : String)
    (file : SFile) (providerName remoteSite : String)
    (preset : Option SiteConfig) (e : PyExc)
    (hres : resolve_paths env file.path pn (some remoteSite)
        (some (env.getProvider providerName pn remoteSite preset)) =
      Except.error e) :
    (upload env pn file providerName remoteSite preset).1 =
      Except.error (PyExc.unboundLocalError "remote_file_path") ∧
    UploadEvent.printedException e ∈ (upload env pn file providerName remoteSite preset).2 ∧
    (∀ t, UploadEvent.calledCreateFolder t ∉
      (upload env pn file providerName remoteSite preset).2) ∧
    (∀ l r, UploadEvent.calledUploadFile l r ∉
      (upload env pn file providerName remoteSite preset).2) := by
  have hu : upload env pn file providerName remoteSite preset =
      (Except.error (PyExc.unboundLocalError "remote_file_path"),
       [UploadEvent.printedException e]) := by
    simp only [upload]
    rw [hres]
  refine ⟨by rw [hu], by rw [hu]; exact List.mem_singleton.mpr rfl, ?_, ?_⟩
  · intro t ht
    rw [hu] at ht
    simp at ht
  · intro l r hlr
    rw [hu] at hlr
    simp at hlr

/-- C9 witness: a handler whose `resolve_path` raises `boom`. -/
theorem upload_swallows_resolve_error_witness :
    (upload resolveFailEnv "P" ⟨"f1", "a.txt"⟩ "gdrive" "gdrive" none).1 =
      Except.error (PyExc.unboundLocalError "remote_file_path") ∧
    UploadEvent.printedException (PyExc.other "boom") ∈
      (upload resolveFailEnv "P" ⟨"f1", "a.txt"⟩ "gdrive" "gdrive" none).2 ∧
    (∀ t, UploadEvent.calledCreateFolder t ∉
      (upload resolveFailEnv "P" ⟨"f1", "a.txt"⟩ "gdrive" "gdrive" none).2) ∧
    (∀ l r, UploadEvent.calledUploadFile l r ∉
      (upload resolveFailEnv "P" ⟨"f1", "a.txt"⟩ "gdrive" "gdrive" none).2) :=
  upload_swallows_resolve_error resolveFailEnv "P" ⟨"f1", "a.txt"⟩ "gdrive"
    "gdrive" none (PyExc.other "boom") rfl

/-- C6: after a successful path resolution, if the remote handler's
`create_folder` for the target directory returns no folder id (`None` or an
empty, falsy id), `upload` raises `NotADirectoryError` and never invokes
`upload_file`; if it returns a (truthy) id, `upload` raises no such
error. -/
theorem upload_create_folder_gate (env : ModuleEnv) (pn : String)
    (file : SFile) (providerName remoteSite : String)
    (preset : Option SiteConfig) (lp rp : String)
    (hres : resolve_paths env file.path pn (some remoteSite)
        (some (env.getProvider providerName pn remoteSite preset)) =
      Except.ok (lp, rp))
    (folderId : Option String)
    (hcf : (env.getProvider providerName pn remoteSite preset).createFolder
        (dirname rp) = Except.ok folderId) :
    (pyTruthyStrOpt folderId = false →
      (upload env pn file providerName remoteSite preset).1 =
        Except.error (PyExc.notADirectoryError
          ("Folder " ++ dirname rp ++ " wasn\x27t created. Check permissions.")) ∧
      ∀ l r, UploadEvent.calledUploadFile l r ∉
        (upload env pn file providerName remoteSite preset).2) ∧
    (pyTruthyStrOpt folderId = true →
      ∀ t, UploadEvent.raisedNotADirectory t ∉
        (upload env pn file providerName remoteSite preset).2) := by
  constructor
  · intro hfalsy
    have hu : upload env pn file providerName remoteSite preset =
        (Except.error (PyExc.notADirectoryError
            ("Folder " ++ dirname rp ++ " wasn\x27t created. Check permissions.")),
         [UploadEvent.calledCreateFolder (dirname rp),
          UploadEvent.raisedNotADirectory (dirname rp)]) := by
      simp only [upload]
      rw [hres]
      simp [hcf, hfalsy]
    refine ⟨by rw [hu], ?_⟩
    intro l r hlr
    rw [hu] at hlr
    simp at hlr
  · intro htruthy t
    rcases hup : (env.getProvider providerName pn remoteSite preset).uploadFile lp rp
      with e | fid
    · have hu : upload env pn file providerName remoteSite preset =
          (Except.error e,
           [UploadEvent.calledCreateFolder (dirname rp),
            UploadEvent.calledUploadFile lp rp]) := by
        simp only [upload]
        rw [hres]
        simp [hcf, htruthy, hup]
      rw [hu]
      simp
    · have hu : upload env pn file providerName remoteSite preset =
          (Except.ok fid,
           [UploadEvent.calledCreateFolder (dirname rp),
            UploadEvent.calledUploadFile lp rp,
            UploadEvent.calledHandleAlternateSite fid]) := by
        simp only [upload]
        rw [hres]
        simp [hcf, htruthy, hup]
      rw [hu]
      simp

/-- C6 witness: `noFolderEnv` (folder id `None`) raises
`NotADirectoryError` without uploading; `testEnv` (truthy id) never raises
it. -/
theorem upload_create_folder_gate_witness :
    ((upload noFolderEnv "P" ⟨"f1", "a.txt"⟩ "gdrive" "gdrive" none).1 =
        Except.error (PyExc.notADirectoryError
          ("Folder " ++ dirname "/root/a.txt" ++ " wasn\x27t created. Check permissions.")) ∧
      ∀ l r, UploadEvent.calledUploadFile l r ∉
        (upload noFolderEnv "P" ⟨"f1", "a.txt"⟩ "gdrive" "gdrive" none).2) ∧
    (∀ t, UploadEvent.raisedNotADirectory t ∉
      (upload testEnv "P" ⟨"f1", "a.txt"⟩ "gdrive" "gdrive" none).2) :=
  ⟨(upload_create_folder_gate noFolderEnv "P" ⟨"f1", "a.txt"⟩ "gdrive" "gdrive"
      none "/root/a.txt" "/root/a.txt" rfl none rfl).1 rfl,
   (upload_create_folder_gate testEnv "P" ⟨"f1", "a.txt"⟩ "gdrive" "gdrive"
      none "/root/a.txt" "/root/a.txt" rfl (some "folder1") rfl).2 rfl⟩

/-- C10: one `check_shutdown` poll cycle executes at most one queued
long-running task, taken from the END of the queue list (`list.pop()`), so
the most recently submitted task runs first; after it completes its project
name is removed from the in-progress set. -/
theorem check_shutdown_lifo (st : ModuleTaskState) (t : LongRunningTask) :
    (check_shutdown_cycle (submit_long_running_task st t)).executed = [t] ∧
    (check_shutdown_cycle (submit_long_running_task st t)).state.longRunningTasks =
      st.longRunningTasks ∧
    t.projectName ∉
      (check_shutdown_cycle (submit_long_running_task st t)).state.projectsProcessed ∧
    (∀ st2 : ModuleTaskState, (check_shutdown_cycle st2).executed.length ≤ 1) := by
  have hcy : check_shutdown_cycle (submit_long_running_task st t) =
      ⟨⟨st.longRunningTasks,
        st.projectsProcessed.filter (fun p => !(p == t.projectName))⟩, [t]⟩ := by
    unfold check_shutdown_cycle submit_long_running_task
    rw [List.getLast?_concat]
    simp [List.dropLast_concat]
  refine ⟨by rw [hcy], by rw [hcy], ?_, ?_⟩
  · rw [hcy]
    intro hmem
    rcases List.mem_filter.mp hmem with ⟨-, hp⟩
    simp at hp
  · intro st2
    unfold check_shutdown_cycle
    cases st2.longRunningTasks.getLast? <;> simp

/-- C10 witness: submitting task 2 for project B after task 1 for project A
runs task 2 first and clears B from the in-progress set. -/
theorem check_shutdown_lifo_witness :
    (check_shutdown_cycle (submit_long_running_task ⟨[⟨1, "A"⟩], ["A", "B"]⟩
        ⟨2, "B"⟩)).executed = [⟨2, "B"⟩] ∧
    (check_shutdown_cycle (submit_long_running_task ⟨[⟨1, "A"⟩], ["A", "B"]⟩
        ⟨2, "B"⟩)).state.longRunningTasks = [⟨1, "A"⟩] ∧
    LongRunningTask.projectName ⟨2, "B"⟩ ∉
      (check_shutdown_cycle (submit_long_running_task ⟨[⟨1, "A"⟩], ["A", "B"]⟩
        ⟨2, "B"⟩)).state.projectsProcessed ∧
    (∀ st2 : ModuleTaskState, (check_shutdown_cycle st2).executed.length ≤ 1) :=
  check_shutdown_lifo ⟨[⟨1, "A"⟩], ["A", "B"]⟩ ⟨2, "B"⟩
